import Mathlib

/-!
Shallow embedding of the Omnisense AT45DB serial-flash driver
(`AT45DB.h` / `AT45DB.cpp`).

The SPI bus is modelled as a function `bus : Nat → Nat` giving the byte the
chip returns on the n-th single-byte full-duplex transfer since construction.
The driver handle together with the observable bus activity is an `AT45State`:
the chip-select level (`cs`, 0 = asserted, 1 = deasserted), the cached
identity (`_at45id` in the source), the two alternating buffer selectors
(`_at45_buffer`, `_g_at45_buffer`), the number of transfers performed so far
(`idx`), and the trace of bus events (`trace`).

Machine integers are embedded as `Nat` with explicit `% 2 ^ 16` (for
`uint16_t` assignments) and `% 2 ^ 32` (for `unsigned int` assignments),
exactly where the C++ performs an integer conversion.
-/

/-- Observable event on the SPI bus: a chip-select level change or a
single-byte transfer with the given outgoing byte. -/
inductive BusEvent : Type
  | setCS (v : Nat)
  | xfer (b : Nat)
deriving DecidableEq, Repr

/-- Model of the driver handle (`class AT45DB`) plus the bus bookkeeping:
how many transfers happened so far and the trace of events. -/
structure AT45State : Type where
  cs : Nat
  at45id : Nat
  at45_buffer : Bool
  g_at45_buffer : Bool
  idx : Nat
  trace : List BusEvent
deriving DecidableEq, Repr

/-- Chip-select assert level (`AT45_CS_LOW`, AT45DB.h line 41). -/
def AT45_CS_LOW : Nat := 0

/-- Chip-select deassert level (`AT45_CS_HIGH`, AT45DB.h line 42). -/
def AT45_CS_HIGH : Nat := 1

/-- Dummy byte clocked out to receive data (`DUMMY`, AT45DB.h line 43). -/
def DUMMY : Nat := 0x00

/-- Device ID of the sole supported chip (`AT45DB161E_ID`, AT45DB.h line 54). -/
def AT45DB161E_ID : Nat := 0x1F2600

/-- Status register read command code (`AT45_STATUS_READ`, AT45DB.h). -/
def AT45_STATUS_READ : Nat := 0xD7

/-- Manufacturer and device ID read command code (`AT45_ID_READ`, AT45DB.h). -/
def AT45_ID_READ : Nat := 0x9F

/-- Power-of-2 binary page size configuration command code
(`AT45_BINARY_PAGE_FIRST_OPCODE`, AT45DB.h). -/
def AT45_BINARY_PAGE_FIRST_OPCODE : Nat := 0x3D

/-- Extended binary page command bytes (`AT45_BINARY_PAGE`, AT45DB.h line 45). -/
def AT45_BINARY_PAGE : List Nat := [0x2A, 0x80, 0xA6]

/-- Main memory page program through buffer 1 command code. -/
def AT45_PAGE_WRITE_BUF1 : Nat := 0x82

/-- Main memory page program through buffer 2 command code. -/
def AT45_PAGE_WRITE_BUF2 : Nat := 0x85

/-- Buffer 1 to main memory page command code. -/
def AT45_BUFFER_TO_MAIN_MEMORY_BUF1 : Nat := 0x83

/-- Buffer 2 to main memory page command code. -/
def AT45_BUFFER_TO_MAIN_MEMORY_BUF2 : Nat := 0x86

/-- Status macro `AT45_STATUS_READY(status)` = `((status) >> 8) & 0x80`
(AT45DB.h line 61). -/
def AT45_STATUS_READY (status : Nat) : Nat := (status >>> 8) &&& 0x80

/-- Status macro `AT45_STATUS_BINARY(status)` = `((status) >> 8) & 0x01`
(AT45DB.h line 65). -/
def AT45_STATUS_BINARY (status : Nat) : Nat := (status >>> 8) &&& 0x01

/-- Status macro `AT45_STATUS_EP_ERROR(status)` = `((status) & 0xff) & 0x20`
(AT45DB.h line 67). -/
def AT45_STATUS_EP_ERROR (status : Nat) : Nat := (status &&& 0xff) &&& 0x20

/-- Macro `AT45_MANU_AND_DEVICE_ID(id)` = `((id) == 0x1f260001)`
(AT45DB.h line 69). -/
def AT45_MANU_AND_DEVICE_ID (i : Nat) : Bool := i == 0x1f260001

/-- Writing the chip-select line (`_at45cs = v`): records the event and the
new level. -/
def csWrite (v : Nat) (s : AT45State) : AT45State :=
  { s with cs := v, trace := s.trace ++ [BusEvent.setCS v] }

/-- One SPI transfer (`_at45spi.write(b)`): sends `b`, returns the byte the
bus yields for the current transfer index, and advances the index. -/
def spiWrite (bus : Nat → Nat) (b : Nat) (s : AT45State) : Nat × AT45State :=
  (bus s.idx, { s with idx := s.idx + 1, trace := s.trace ++ [BusEvent.xfer b] })

/-- Embedding of `AT45DB::at45_get_status` (AT45DB.cpp lines 396-409):
assert CS, send 0xD7, clock two dummy bytes, deassert CS, return
`byte1 << 8 | byte2` with `uint16_t` truncation at each assignment. -/
def at45_get_status (bus : Nat → Nat) (s : AT45State) : Nat × AT45State :=
  let s1 := csWrite AT45_CS_LOW s
  let r1 := spiWrite bus AT45_STATUS_READ s1
  let r2 := spiWrite bus DUMMY r1.2
  let dataval := r2.1 % 2 ^ 16
  let data := (dataval <<< 8) % 2 ^ 16
  let r3 := spiWrite bus DUMMY r2.2
  let dataval2 := r3.1 % 2 ^ 16
  let data2 := (data ||| dataval2) % 2 ^ 16
  (data2, csWrite AT45_CS_HIGH r3.2)

/-- Embedding of `AT45DB::at45_get_id` (AT45DB.cpp lines 414-429):
assert CS, send 0x9F, clock three dummy bytes accumulating big-endian,
deassert CS, store the value in `_at45id`, return it.  `unsigned int`
arithmetic is truncated with `% 2 ^ 32`. -/
def at45_get_id (bus : Nat → Nat) (s : AT45State) : Nat × AT45State :=
  let s1 := csWrite AT45_CS_LOW s
  let r1 := spiWrite bus AT45_ID_READ s1
  let r2 := spiWrite bus DUMMY r1.2
  let data32a := r2.1 % 2 ^ 32
  let r3 := spiWrite bus DUMMY r2.2
  let dataA := r3.1 % 2 ^ 32
  let data32b := ((data32a <<< 8) ||| dataA) % 2 ^ 32
  let r4 := spiWrite bus DUMMY r3.2
  let dataB := r4.1 % 2 ^ 32
  let data32c := ((data32b <<< 8) ||| dataB) % 2 ^ 32
  let s2 := csWrite AT45_CS_HIGH r4.2
  (data32c, { s2 with at45id := data32c })

/-- The bus-event trace of one status-read transaction. -/
def statusReadTxn : List BusEvent :=
  [BusEvent.setCS AT45_CS_LOW, BusEvent.xfer AT45_STATUS_READ,
   BusEvent.xfer DUMMY, BusEvent.xfer DUMMY, BusEvent.setCS AT45_CS_HIGH]

/-- The bus-event trace of one identity-read transaction. -/
def idReadTxn : List BusEvent :=
  [BusEvent.setCS AT45_CS_LOW, BusEvent.xfer AT45_ID_READ,
   BusEvent.xfer DUMMY, BusEvent.xfer DUMMY, BusEvent.xfer DUMMY,
   BusEvent.setCS AT45_CS_HIGH]

/-- The 16-bit status word assembled from the two bytes the bus returns on
transfers `i+1` and `i+2` (transfer `i` carries the opcode). -/
def at45_status_word (bus : Nat → Nat) (i : Nat) : Nat :=
  (((bus (i + 1) % 2 ^ 16) <<< 8) % 2 ^ 16 ||| bus (i + 2) % 2 ^ 16) % 2 ^ 16

/-- The 24-bit (after `unsigned int` truncation) identity assembled from the
three bytes the bus returns on transfers `i+1`, `i+2`, `i+3`. -/
def at45_id_word (bus : Nat → Nat) (i : Nat) : Nat :=
  ((((bus (i + 1) % 2 ^ 32) <<< 8 ||| bus (i + 2) % 2 ^ 32) % 2 ^ 32) <<< 8
    ||| bus (i + 3) % 2 ^ 32) % 2 ^ 32

theorem at45_get_status_eq (bus : Nat → Nat) (s : AT45State) :
    at45_get_status bus s =
      (at45_status_word bus s.idx,
       { s with cs := AT45_CS_HIGH, idx := s.idx + 3,
                trace := s.trace ++ statusReadTxn }) := by
  simp [at45_get_status, csWrite, spiWrite, at45_status_word, statusReadTxn]

theorem at45_get_id_eq (bus : Nat → Nat) (s : AT45State) :
    at45_get_id bus s =
      (at45_id_word bus s.idx,
       { s with cs := AT45_CS_HIGH, at45id := at45_id_word bus s.idx,
                idx := s.idx + 4, trace := s.trace ++ idReadTxn }) := by
  simp [at45_get_id, csWrite, spiWrite, at45_id_word, idReadTxn]

/-- Embedding of the `do { status = at45_get_status(); } while
(!AT45_STATUS_READY(status));` loop of `at45_set_pagesize_binary`
(AT45DB.cpp lines 455-457).  The C++ loop is unbounded; the embedding takes
a fuel bound and returns `none` when the loop has not exited within `fuel`
iterations, so that termination can be reasoned about explicitly. -/
def at45_poll_ready (bus : Nat → Nat) : Nat → AT45State → Option (Nat × AT45State)
  | 0, _ => none
  | fuel + 1, s =>
    let r := at45_get_status bus s
    if AT45_STATUS_READY r.1 ≠ 0 then some r
    else at45_poll_ready bus fuel r.2

/-- The `devcmd` array of `at45_set_pagesize_binary` (AT45DB.cpp line 445):
`{AT45_BINARY_PAGE_FIRST_OPCODE, AT45_BINARY_PAGE}` = 3D 2A 80 A6. -/
def devcmd : List Nat := AT45_BINARY_PAGE_FIRST_OPCODE :: AT45_BINARY_PAGE

/-- Embedding of `AT45DB::at45_set_pagesize_binary` (AT45DB.cpp lines
442-460): read status; if not binary, send the 4-byte `devcmd` frame in one
CS-framed transaction and poll status until ready (fueled); return
`AT45_STATUS_BINARY(status)` converted to `bool`. -/
def at45_set_pagesize_binary (bus : Nat → Nat) (fuel : Nat) (s : AT45State) :
    Option (Bool × AT45State) :=
  let r := at45_get_status bus s
  if AT45_STATUS_BINARY r.1 = 0 then
    let s1 := csWrite AT45_CS_LOW r.2
    let w1 := spiWrite bus (devcmd.getD 0 0) s1
    let w2 := spiWrite bus (devcmd.getD 1 0) w1.2
    let w3 := spiWrite bus (devcmd.getD 2 0) w2.2
    let w4 := spiWrite bus (devcmd.getD 3 0) w3.2
    let s2 := csWrite AT45_CS_HIGH w4.2
    match at45_poll_ready bus fuel s2 with
    | none => none
    | some (status, s3) => some (AT45_STATUS_BINARY status != 0, s3)
  else some (AT45_STATUS_BINARY r.1 != 0, r.2)

/-- Embedding of `AT45DB::init` (AT45DB.cpp lines 48-92): deassert CS, read
the identity (zeroing the local result if it is not `AT45DB161E_ID`), read
status, and if not already in binary page mode run
`at45_set_pagesize_binary`, zeroing the result if that returns false.
The SPI frequency configuration has no bus-transaction effect and is not
modelled.  Fueled through the poll loop. -/
def init (bus : Nat → Nat) (fuel : Nat) (s : AT45State) :
    Option (Nat × AT45State) :=
  let s1 := csWrite AT45_CS_HIGH s
  let r := at45_get_id bus s1
  let at45dbid := if r.1 = AT45DB161E_ID then r.1 else 0
  let r2 := at45_get_status bus r.2
  if AT45_STATUS_BINARY r2.1 ≠ 0 then some (at45dbid, r2.2)
  else
    match at45_set_pagesize_binary bus fuel r2.2 with
    | none => none
    | some (ok, s3) => if ok then some (at45dbid, s3) else some (0, s3)

/-- Embedding of the constructor `AT45DB::AT45DB` (AT45DB.cpp lines 39-44):
runs `init` and stores its result in `_at45id`. -/
def AT45DB_ctor (bus : Nat → Nat) (fuel : Nat) (s : AT45State) :
    Option AT45State :=
  match init bus fuel s with
  | none => none
  | some (r, s1) => some { s1 with at45id := r }

/-- The three MSB-first address bytes of a 24-bit address, as framed by the
page-write / buffer-commit operations (`opcode[1..3]`). -/
def addrBytes (addr : Nat) : List Nat :=
  [(addr >>> 16) &&& 0xFF, (addr >>> 8) &&& 0xFF, addr &&& 0xFF]

/-- Appending a list of transmitted bytes to the trace, as one DMA burst
inside an asserted-CS window (the `lwspi_dma_tx` of the reference code). -/
def dmaWrite (bs : List Nat) (s : AT45State) : AT45State :=
  { s with trace := s.trace ++ bs.map BusEvent.xfer }

/-- The opcode byte `at45_writepage` selects from its alternating selector:
`at45_buffer1 ? AT45_PAGE_WRITE_BUF1 : AT45_PAGE_WRITE_BUF2`. -/
def at45_writepage_opcode (s : AT45State) : Nat :=
  if s.at45_buffer then AT45_PAGE_WRITE_BUF1 else AT45_PAGE_WRITE_BUF2

/-- The opcode byte `at45_buffer2memory` selects from its own selector:
`g_at45_buffer1 ? AT45_BUFFER_TO_MAIN_MEMORY_BUF1 :
AT45_BUFFER_TO_MAIN_MEMORY_BUF2`. -/
def at45_buffer2memory_opcode (s : AT45State) : Nat :=
  if s.g_at45_buffer then AT45_BUFFER_TO_MAIN_MEMORY_BUF1
  else AT45_BUFFER_TO_MAIN_MEMORY_BUF2

/-- Embedding of `at45_writepage` (AT45DB.cpp lines 513-534, the reference
implementation kept in the source file; its alternating selector static is
the handle field `_at45_buffer` declared in AT45DB.h line 251): pick the
page-write opcode designated by the current selector, toggle the selector,
and send opcode + 3 address bytes + payload in one CS-framed transaction. -/
def at45_writepage (addr : Nat) (buff : List Nat) (s : AT45State) :
    Bool × AT45State :=
  let opcode0 := at45_writepage_opcode s
  let s1 := { s with at45_buffer := !s.at45_buffer }
  let s2 := csWrite AT45_CS_LOW s1
  let s3 := dmaWrite ((opcode0 :: addrBytes addr) ++ buff) s2
  (true, csWrite AT45_CS_HIGH s3)

/-- Embedding of `at45_buffer2memory` (AT45DB.cpp lines 558-579, the
reference implementation kept in the source file; its alternating selector
global is the handle field `_g_at45_buffer` declared in AT45DB.h line 252):
pick the buffer-to-memory opcode designated by the current commit selector,
toggle that selector, and send opcode + 3 address bytes with no payload. -/
def at45_buffer2memory (addr : Nat) (s : AT45State) : Bool × AT45State :=
  let opcode0 := at45_buffer2memory_opcode s
  let s1 := { s with g_at45_buffer := !s.g_at45_buffer }
  let s2 := csWrite AT45_CS_LOW s1
  let s3 := dmaWrite (opcode0 :: addrBytes addr) s2
  (true, csWrite AT45_CS_HIGH s3)

/-- The bus-event trace of the 4-byte binary-page-geometry frame. -/
def binaryFrameTxn : List BusEvent :=
  [BusEvent.setCS AT45_CS_LOW, BusEvent.xfer 0x3D, BusEvent.xfer 0x2A,
   BusEvent.xfer 0x80, BusEvent.xfer 0xA6, BusEvent.setCS AT45_CS_HIGH]

/-- A freshly constructed handle state: CS idle high, no cached identity,
both selectors at their initializers (`true`), no transfers yet. -/
def st0 : AT45State :=
  { cs := 1, at45id := 0, at45_buffer := true, g_at45_buffer := true,
    idx := 0, trace := [] }

/-- Simulated bus answering a status read with bytes 0xAB, 0xCD. -/
def busStatusAB : Nat → Nat := fun i => [0, 0xAB, 0xCD].getD i 0

/-- Simulated bus answering an identity read with bytes 1F 26 00. -/
def busIdOnly : Nat → Nat := fun i => [0, 0x1F, 0x26, 0x00].getD i 0

/-- Simulated bus answering an identity read with bytes 1F 26 00 followed by
a status read with bytes 81 01 (ready, binary page mode: bit 0 of the upper
status byte set). -/
def busInitOk : Nat → Nat :=
  fun i => [0, 0x1F, 0x26, 0x00, 0, 0x81, 0x01].getD i 0

/-- Simulated bus answering a status read with bytes 81 01 (ready, binary). -/
def busBinaryReady : Nat → Nat := fun i => [0, 0x81, 0x01].getD i 0

/-- Simulated bus yielding identity bytes 1F 26 00 and answering every status
read of the initialization run with bytes 80 01: ready, binary-page-mode bit
clear.  Transfers 5/6, 8/9 and 15/16 are the status-byte positions reached
during `AT45DB_ctor` over this bus. -/
def busStatus8001 : Nat → Nat := fun i =>
  if i = 1 then 0x1F else if i = 2 then 0x26 else if i = 3 then 0x00
  else if i = 5 ∨ i = 8 ∨ i = 15 then 0x80
  else if i = 6 ∨ i = 9 ∨ i = 16 then 0x01 else 0

/-- Simulated bus for the geometry-change path: the first status read and
the first poll report neither binary nor ready; the second poll (whose first
status byte is transfer 11) reports ready with binary mode set. -/
def busGeom : Nat → Nat := fun i => if i = 11 then 0x81 else 0

/-! ### Claim theorems -/

/-- C1: for every pair of bytes (b1, b2) the bus returns for the two dummy
transfers of a status read, `at45_get_status` asserts CS, sends opcode 0xD7,
clocks exactly two dummy bytes, deasserts CS, and returns
`(b1 <<< 8) ||| b2`; the final state differs from the initial one only in
the transfer index and the appended single transaction (no other bus
traffic, no handle field modified). -/
theorem at45_get_status_correct (bus : Nat → Nat) (s : AT45State) (b1 b2 : Nat)
    (hcs : s.cs = AT45_CS_HIGH)
    (h1 : bus (s.idx + 1) = b1) (h2 : bus (s.idx + 2) = b2)
    (hb1 : b1 < 256) (hb2 : b2 < 256) :
    at45_get_status bus s =
      ((b1 <<< 8) ||| b2,
       { s with idx := s.idx + 3, trace := s.trace ++ statusReadTxn }) := by
  have hs : b1 <<< 8 < 2 ^ 16 := by
    rw [Nat.shiftLeft_eq]; norm_num; omega
  have hw : at45_status_word bus s.idx = (b1 <<< 8) ||| b2 := by
    rw [at45_status_word, h1, h2, Nat.mod_eq_of_lt (show b1 < 2 ^ 16 by omega),
      Nat.mod_eq_of_lt hs, Nat.mod_eq_of_lt (show b2 < 2 ^ 16 by omega),
      Nat.mod_eq_of_lt (Nat.or_lt_two_pow hs (by omega))]
  rw [at45_get_status_eq, hw]
  obtain ⟨c, a, ab, gb, i, t⟩ := s
  simp only [AT45_CS_HIGH] at hcs
  subst hcs
  rfl

/-- C1 witness: concrete run on a bus answering 0xAB, 0xCD. -/
theorem at45_get_status_correct_witness :
    at45_get_status busStatusAB st0 =
      ((0xAB <<< 8) ||| 0xCD,
       { st0 with idx := st0.idx + 3, trace := st0.trace ++ statusReadTxn }) :=
  at45_get_status_correct busStatusAB st0 0xAB 0xCD rfl rfl rfl
    (by norm_num) (by norm_num)

/-- C2: for every 16-bit status word, the ready predicate holds iff bit 7 of
the upper byte (bit 15 of the word) is set, and the erase/program error
predicate holds iff bit 5 of the lower byte (bit 5 of the word) is set; in
particular 0x8001 is ready without error and 0x0020 is erroring without
being ready. -/
theorem at45_status_predicates (w : Nat) (h : w < 2 ^ 16) :
    ((AT45_STATUS_READY w ≠ 0 ↔ w.testBit 15) ∧
     (AT45_STATUS_EP_ERROR w ≠ 0 ↔ w.testBit 5)) ∧
    (AT45_STATUS_READY 0x8001 ≠ 0 ∧ AT45_STATUS_EP_ERROR 0x8001 = 0 ∧
     AT45_STATUS_READY 0x0020 = 0 ∧ AT45_STATUS_EP_ERROR 0x0020 ≠ 0) := by
  refine ⟨⟨?_, ?_⟩, by decide⟩
  · have h80 : (0x80 : Nat) = 2 ^ 7 := by norm_num
    rw [AT45_STATUS_READY, h80, Nat.and_two_pow, Nat.testBit_shiftRight]
    cases hb : w.testBit 15 <;> simp [hb]
  · have h20 : (0x20 : Nat) = 2 ^ 5 := by norm_num
    have h255 : Nat.testBit 255 5 = true := by decide
    rw [AT45_STATUS_EP_ERROR, h20, Nat.and_two_pow, Nat.testBit_and, h255]
    cases hb : w.testBit 5 <;> simp [hb]

/-- C2 witness: instantiation at the concrete status word 0x8001. -/
theorem at45_status_predicates_witness :
    ((AT45_STATUS_READY 0x8001 ≠ 0 ↔ (0x8001 : Nat).testBit 15) ∧
     (AT45_STATUS_EP_ERROR 0x8001 ≠ 0 ↔ (0x8001 : Nat).testBit 5)) ∧
    (AT45_STATUS_READY 0x8001 ≠ 0 ∧ AT45_STATUS_EP_ERROR 0x8001 = 0 ∧
     AT45_STATUS_READY 0x0020 = 0 ∧ AT45_STATUS_EP_ERROR 0x0020 ≠ 0) :=
  at45_status_predicates 0x8001 (by norm_num)

/-- C3: for every bus returning 0x1F, 0x26, 0x00 for the three dummy
transfers of an identity read, `at45_get_id` sends opcode 0x9F (visible in
`idReadTxn`), accumulates the bytes big-endian and returns 0x1F2600, which
is the supported constant `AT45DB161E_ID`. -/
theorem at45_get_id_resolves (bus : Nat → Nat) (s : AT45State)
    (hcs : s.cs = AT45_CS_HIGH) (h1 : bus (s.idx + 1) = 0x1F)
    (h2 : bus (s.idx + 2) = 0x26) (h3 : bus (s.idx + 3) = 0x00) :
    at45_get_id bus s =
      (0x1F2600,
       { s with at45id := 0x1F2600, idx := s.idx + 4,
                trace := s.trace ++ idReadTxn }) ∧
    (0x1F2600 : Nat) = AT45DB161E_ID := by
  have hw : at45_id_word bus s.idx = 0x1F2600 := by
    rw [at45_id_word, h1, h2, h3]; decide
  rw [at45_get_id_eq, hw]
  obtain ⟨c, a, ab, gb, i, t⟩ := s
  simp only [AT45_CS_HIGH] at hcs
  subst hcs
  exact ⟨rfl, rfl⟩

/-- C3 witness: concrete run on the simulated identity bus. -/
theorem at45_get_id_resolves_witness :
    (at45_get_id busIdOnly st0 =
      (0x1F2600,
       { st0 with at45id := 0x1F2600, idx := st0.idx + 4,
                  trace := st0.trace ++ idReadTxn }) ∧
    (0x1F2600 : Nat) = AT45DB161E_ID) :=
  at45_get_id_resolves busIdOnly st0 rfl rfl rfl rfl

/-- C5: when the first status read already reports binary page mode,
`at45_set_pagesize_binary` performs exactly the one status-read transaction
(the final state is the initial one advanced by just `statusReadTxn`),
issues no geometry frame and no polls, and returns `true` — for any fuel,
even zero. -/
theorem at45_set_pagesize_binary_idempotent (bus : Nat → Nat) (fuel : Nat)
    (s : AT45State)
    (h : AT45_STATUS_BINARY (at45_status_word bus s.idx) ≠ 0) :
    at45_set_pagesize_binary bus fuel s =
      some (true,
        { s with cs := AT45_CS_HIGH, idx := s.idx + 3,
                 trace := s.trace ++ statusReadTxn }) := by
  rw [at45_set_pagesize_binary, at45_get_status_eq]
  simp [h]

/-- C5 witness: concrete run on a bus reporting status 0x8101, with zero
fuel for the (unreached) poll loop. -/
theorem at45_set_pagesize_binary_idempotent_witness :
    at45_set_pagesize_binary busBinaryReady 0 st0 =
      some (true,
        { st0 with cs := AT45_CS_HIGH, idx := st0.idx + 3,
                   trace := st0.trace ++ statusReadTxn }) :=
  at45_set_pagesize_binary_idempotent busBinaryReady 0 st0 (by decide)

/-- C7: `at45_writepage` sends the opcode designated by the page-write
selector and toggles exactly that selector; `at45_buffer2memory` sends the
opcode designated by the commit selector and toggles exactly that selector;
two consecutive calls of the same operation therefore use the two distinct
opcodes of its family (0x82/0x85, resp. 0x83/0x86), never the same twice in
a row, and the two selectors are independent of each other. -/
theorem at45_buffer_alternation (a1 a2 : Nat) (d1 : List Nat) (s : AT45State) :
    ((at45_writepage a1 d1 s).2.trace =
        s.trace ++ [BusEvent.setCS AT45_CS_LOW]
          ++ ((at45_writepage_opcode s :: addrBytes a1) ++ d1).map BusEvent.xfer
          ++ [BusEvent.setCS AT45_CS_HIGH] ∧
      at45_writepage_opcode ((at45_writepage a1 d1 s).2) ≠
        at45_writepage_opcode s ∧
      (at45_writepage_opcode s = AT45_PAGE_WRITE_BUF1 ∨
        at45_writepage_opcode s = AT45_PAGE_WRITE_BUF2) ∧
      (at45_writepage a1 d1 s).2.at45_buffer = !s.at45_buffer ∧
      (at45_writepage a1 d1 s).2.g_at45_buffer = s.g_at45_buffer) ∧
    ((at45_buffer2memory a2 s).2.trace =
        s.trace ++ [BusEvent.setCS AT45_CS_LOW]
          ++ (at45_buffer2memory_opcode s :: addrBytes a2).map BusEvent.xfer
          ++ [BusEvent.setCS AT45_CS_HIGH] ∧
      at45_buffer2memory_opcode ((at45_buffer2memory a2 s).2) ≠
        at45_buffer2memory_opcode s ∧
      (at45_buffer2memory_opcode s = AT45_BUFFER_TO_MAIN_MEMORY_BUF1 ∨
        at45_buffer2memory_opcode s = AT45_BUFFER_TO_MAIN_MEMORY_BUF2) ∧
      (at45_buffer2memory a2 s).2.g_at45_buffer = !s.g_at45_buffer ∧
      (at45_buffer2memory a2 s).2.at45_buffer = s.at45_buffer) := by
  obtain ⟨c, a, ab, gb, i, t⟩ := s
  cases ab <;> cases gb <;>
    simp [at45_writepage, at45_buffer2memory, at45_writepage_opcode,
      at45_buffer2memory_opcode, csWrite, dmaWrite, AT45_PAGE_WRITE_BUF1,
      AT45_PAGE_WRITE_BUF2, AT45_BUFFER_TO_MAIN_MEMORY_BUF1,
      AT45_BUFFER_TO_MAIN_MEMORY_BUF2]

/-- C9: `at45_get_id` returns the raw identity word read from the bus,
stores exactly that value in the cached `_at45id` field — whatever the value
is, matching the supported constant or not — and modifies no other handle
field: starting from an idle (CS-high) handle, the final state is the
initial one with only `at45id` replaced (plus the bus bookkeeping of the
single identity-read transaction).  In particular a zero sentinel left by a
failed initialization is overwritten with the raw chip identity. -/
theorem at45_get_id_cache (bus : Nat → Nat) (s : AT45State)
    (hcs : s.cs = AT45_CS_HIGH) :
    at45_get_id bus s =
      ((at45_get_id bus s).1,
       { s with at45id := (at45_get_id bus s).1, idx := s.idx + 4,
                trace := s.trace ++ idReadTxn }) := by
  rw [at45_get_id_eq]
  obtain ⟨c, a, ab, gb, i, t⟩ := s
  simp only [AT45_CS_HIGH] at hcs
  subst hcs
  rfl

/-- C9 witness: concrete run over a bus whose identity bytes AB CD 00 do not
match the supported constant; the cached field still receives the raw value,
replacing the zero sentinel of `st0`. -/
theorem at45_get_id_cache_witness :
    at45_get_id busStatusAB st0 =
      ((at45_get_id busStatusAB st0).1,
       { st0 with at45id := (at45_get_id busStatusAB st0).1,
                  idx := st0.idx + 4, trace := st0.trace ++ idReadTxn }) :=
  at45_get_id_cache busStatusAB st0 rfl

/-- C10: whenever the bus behaves as a byte stream (every response below
256), the value `at45_get_id` returns fits in 24 bits, and the macro
`AT45_MANU_AND_DEVICE_ID` — which compares against the 32-bit constant
0x1F260001 — is false on it. -/
theorem at45_manu_id_never_true (bus : Nat → Nat) (s : AT45State)
    (hb : ∀ i, bus i < 256) :
    (at45_get_id bus s).1 < 2 ^ 24 ∧
    AT45_MANU_AND_DEVICE_ID (at45_get_id bus s).1 = false := by
  have hlt : (at45_get_id bus s).1 < 2 ^ 24 := by
    rw [at45_get_id_eq, at45_id_word]
    have m1 : bus (s.idx + 1) % 2 ^ 32 = bus (s.idx + 1) :=
      Nat.mod_eq_of_lt (lt_trans (hb _) (by norm_num))
    have m2 : bus (s.idx + 2) % 2 ^ 32 = bus (s.idx + 2) :=
      Nat.mod_eq_of_lt (lt_trans (hb _) (by norm_num))
    have m3 : bus (s.idx + 3) % 2 ^ 32 = bus (s.idx + 3) :=
      Nat.mod_eq_of_lt (lt_trans (hb _) (by norm_num))
    rw [m1, m2, m3]
    have hs1 : bus (s.idx + 1) <<< 8 < 2 ^ 16 := by
      rw [Nat.shiftLeft_eq]
      have := hb (s.idx + 1); norm_num; omega
    have ho1 : bus (s.idx + 1) <<< 8 ||| bus (s.idx + 2) < 2 ^ 16 :=
      Nat.or_lt_two_pow hs1 (lt_trans (hb _) (by norm_num))
    rw [Nat.mod_eq_of_lt (lt_trans ho1 (by norm_num))]
    have hs2 : (bus (s.idx + 1) <<< 8 ||| bus (s.idx + 2)) <<< 8 < 2 ^ 24 := by
      rw [Nat.shiftLeft_eq]
      calc (bus (s.idx + 1) <<< 8 ||| bus (s.idx + 2)) * 2 ^ 8
          < 2 ^ 16 * 2 ^ 8 := by
            exact Nat.mul_lt_mul_of_lt_of_le ho1 (le_refl _) (by norm_num)
        _ = 2 ^ 24 := by norm_num
    have ho2 : ((bus (s.idx + 1) <<< 8 ||| bus (s.idx + 2)) <<< 8
        ||| bus (s.idx + 3)) < 2 ^ 24 :=
      Nat.or_lt_two_pow hs2 (lt_trans (hb _) (by norm_num))
    rw [Nat.mod_eq_of_lt (lt_trans ho2 (by norm_num))]
    exact ho2
  refine ⟨hlt, ?_⟩
  rw [AT45_MANU_AND_DEVICE_ID]
  have : (at45_get_id bus s).1 ≠ 0x1f260001 := by
    intro hcontra
    rw [hcontra] at hlt
    norm_num at hlt
  simpa using this

/-- C10 witness: concrete run over the simulated identity bus (all responses
are bytes). -/
theorem at45_manu_id_never_true_witness :
    (at45_get_id busIdOnly st0).1 < 2 ^ 24 ∧
    AT45_MANU_AND_DEVICE_ID (at45_get_id busIdOnly st0).1 = false :=
  at45_manu_id_never_true busIdOnly st0 (by
    intro i
    rcases i with _ | _ | _ | _ | i <;> simp [busIdOnly, List.getD])

/-! ### Poll-loop machinery -/

/-- The state reached from `s` after `n` complete status-read transactions
(CS ends deasserted). -/
def pollAdvance (s : AT45State) (n : Nat) : AT45State :=
  { s with cs := AT45_CS_HIGH, idx := s.idx + 3 * n,
           trace := s.trace ++ (List.replicate n statusReadTxn).join }

theorem pollAdvance_idx (s : AT45State) (n : Nat) :
    (pollAdvance s n).idx = s.idx + 3 * n := rfl

theorem at45_get_status_pollAdvance (bus : Nat → Nat) (s : AT45State) :
    at45_get_status bus s = (at45_status_word bus s.idx, pollAdvance s 1) := by
  rw [at45_get_status_eq, pollAdvance]
  simp

theorem pollAdvance_pollAdvance (s : AT45State) (m n : Nat) :
    pollAdvance (pollAdvance s m) n = pollAdvance s (m + n) := by
  rw [pollAdvance, pollAdvance, pollAdvance]
  simp [← List.join_append, ← List.replicate_add]
  omega

theorem at45_poll_ready_spec (bus : Nat → Nat) :
    ∀ (fuel : Nat) (s : AT45State) (p : Nat × AT45State),
      at45_poll_ready bus fuel s = some p ↔
        ∃ k, k < fuel ∧
          (∀ j, j < k →
            AT45_STATUS_READY (at45_status_word bus (s.idx + 3 * j)) = 0) ∧
          AT45_STATUS_READY (at45_status_word bus (s.idx + 3 * k)) ≠ 0 ∧
          p = (at45_status_word bus (s.idx + 3 * k), pollAdvance s (k + 1)) := by
  intro fuel
  induction fuel with
  | zero =>
    intro s p
    simp [at45_poll_ready]
  | succ fuel ih =>
    intro s p
    have hunf : at45_poll_ready bus (fuel + 1) s =
        (if AT45_STATUS_READY (at45_status_word bus s.idx) ≠ 0
         then some (at45_status_word bus s.idx, pollAdvance s 1)
         else at45_poll_ready bus fuel (pollAdvance s 1)) := by
      show (let r := at45_get_status bus s
            if AT45_STATUS_READY r.1 ≠ 0 then some r
            else at45_poll_ready bus fuel r.2) = _
      simp only [at45_get_status_pollAdvance]
    rw [hunf]
    by_cases h : AT45_STATUS_READY (at45_status_word bus s.idx) ≠ 0
    · rw [if_pos h]
      simp only [Option.some.injEq]
      constructor
      · intro hp
        refine ⟨0, Nat.succ_pos _, by omega, ?_, ?_⟩
        · simpa using h
        · simpa using hp.symm
      · rintro ⟨k, -, hzero, hk, hp⟩
        have hk0 : k = 0 := by
          by_contra hne
          exact h (by simpa using hzero 0 (Nat.pos_of_ne_zero hne))
        subst hk0
        simpa using hp.symm
    · rw [if_neg h]
      rw [ih]
      simp only [pollAdvance_idx]
      constructor
      · rintro ⟨k, hkf, hzero, hk, hp⟩
        refine ⟨k + 1, by omega, ?_, ?_, ?_⟩
        · intro j hj
          rcases Nat.eq_zero_or_pos j with hj0 | hj0
          · subst hj0
            simpa using not_not.mp h
          · obtain ⟨j', rfl⟩ : ∃ j', j = j' + 1 := ⟨j - 1, by omega⟩
            have := hzero j' (by omega)
            rw [show s.idx + 3 * 1 + 3 * j' = s.idx + 3 * (j' + 1) by omega]
              at this
            exact this
        · rw [show s.idx + 3 * (k + 1) = s.idx + 3 * 1 + 3 * k by omega]
          exact hk
        · subst hp
          rw [pollAdvance_pollAdvance]
          have h1 : s.idx + 3 * 1 + 3 * k = s.idx + 3 * (k + 1) := by omega
          have h2 : 1 + (k + 1) = k + 1 + 1 := by omega
          rw [h1, h2]
      · rintro ⟨k, hkf, hzero, hk, hp⟩
        have hk0 : k ≠ 0 := by
          intro hk0
          subst hk0
          exact h (by simpa using hk)
        obtain ⟨k', rfl⟩ : ∃ k', k = k' + 1 := ⟨k - 1, by omega⟩
        refine ⟨k', by omega, ?_, ?_, ?_⟩
        · intro j hj
          have := hzero (j + 1) (by omega)
          rw [show s.idx + 3 * (j + 1) = s.idx + 3 * 1 + 3 * j by omega] at this
          exact this
        · rw [show s.idx + 3 * 1 + 3 * k' = s.idx + 3 * (k' + 1) by omega]
          exact hk
        · subst hp
          rw [pollAdvance_pollAdvance]
          have h1 : s.idx + 3 * (k' + 1) = s.idx + 3 * 1 + 3 * k' := by omega
          have h2 : k' + 1 + 1 = 1 + (k' + 1) := by omega
          rw [h1, h2]

/-- Termination of the unbounded poll loop: some fuel suffices iff some
status read eventually reports ready. -/
theorem at45_poll_ready_terminates (bus : Nat → Nat) (s : AT45State) :
    (∃ fuel p, at45_poll_ready bus fuel s = some p) ↔
      (∃ k, AT45_STATUS_READY (at45_status_word bus (s.idx + 3 * k)) ≠ 0) := by
  constructor
  · rintro ⟨fuel, p, hp⟩
    obtain ⟨k, -, -, hk, -⟩ := (at45_poll_ready_spec bus fuel s p).mp hp
    exact ⟨k, hk⟩
  · rintro ⟨k, hk⟩
    have hex : ∃ k,
        AT45_STATUS_READY (at45_status_word bus (s.idx + 3 * k)) ≠ 0 := ⟨k, hk⟩
    classical
    let k0 := Nat.find hex
    refine ⟨k0 + 1,
      (at45_status_word bus (s.idx + 3 * k0), pollAdvance s (k0 + 1)), ?_⟩
    rw [at45_poll_ready_spec]
    exact ⟨k0, by omega, fun j hj => not_not.mp (Nat.find_min hex hj),
      Nat.find_spec hex, rfl⟩

/-- The state reached from `s` after the initial status read and the 4-byte
geometry frame of `at45_set_pagesize_binary` (7 transfers). -/
def frameAdvance (s : AT45State) : AT45State :=
  { s with cs := AT45_CS_HIGH, idx := s.idx + 7,
           trace := s.trace ++ statusReadTxn ++ binaryFrameTxn }

theorem at45_set_pagesize_binary_eq_poll (bus : Nat → Nat) (fuel : Nat)
    (s : AT45State)
    (h : AT45_STATUS_BINARY (at45_status_word bus s.idx) = 0) :
    at45_set_pagesize_binary bus fuel s =
      Option.map (fun q => ((AT45_STATUS_BINARY q.1 != 0), q.2))
        (at45_poll_ready bus fuel (frameAdvance s)) := by
  have hframe : csWrite AT45_CS_HIGH
      (spiWrite bus (devcmd.getD 3 0)
        (spiWrite bus (devcmd.getD 2 0)
          (spiWrite bus (devcmd.getD 1 0)
            (spiWrite bus (devcmd.getD 0 0)
              (csWrite AT45_CS_LOW
                { s with cs := AT45_CS_HIGH, idx := s.idx + 3,
                         trace := s.trace ++ statusReadTxn })).2).2).2).2
      = frameAdvance s := by
    simp [csWrite, spiWrite, frameAdvance, binaryFrameTxn, devcmd,
      AT45_BINARY_PAGE, AT45_BINARY_PAGE_FIRST_OPCODE]
  rw [at45_set_pagesize_binary, at45_get_status_eq]
  simp only [if_pos h, hframe]
  cases hp : at45_poll_ready bus fuel (frameAdvance s) with
  | none => rfl
  | some q => rfl

theorem pollAdvance_frameAdvance (s : AT45State) (n : Nat) :
    pollAdvance (frameAdvance s) n =
      { s with cs := AT45_CS_HIGH, idx := s.idx + 7 + 3 * n,
               trace := s.trace ++ statusReadTxn ++ binaryFrameTxn
                 ++ (List.replicate n statusReadTxn).join } := by
  rw [pollAdvance, frameAdvance]

/-- C6: when the first status read does not report binary page mode,
`at45_set_pagesize_binary` sends exactly the 4-byte frame 3D 2A 80 A6 in one
select-framed transaction and then repeatedly reads status; the loop (which
has no timeout: the fueled embedding succeeds for some fuel) terminates iff
some later status read has the ready bit set, and on termination the
function returns the binary bit of that final status word, the trace being
the initial status read, the frame, and the polled status reads. -/
theorem at45_set_pagesize_binary_nonbinary (bus : Nat → Nat) (s : AT45State)
    (h : AT45_STATUS_BINARY (at45_status_word bus s.idx) = 0) :
    ((∃ fuel q, at45_set_pagesize_binary bus fuel s = some q) ↔
      (∃ k, AT45_STATUS_READY (at45_status_word bus (s.idx + 7 + 3 * k)) ≠ 0)) ∧
    (∀ fuel b s', at45_set_pagesize_binary bus fuel s = some (b, s') →
      ∃ k,
        (∀ j, j < k →
          AT45_STATUS_READY (at45_status_word bus (s.idx + 7 + 3 * j)) = 0) ∧
        AT45_STATUS_READY (at45_status_word bus (s.idx + 7 + 3 * k)) ≠ 0 ∧
        b = (AT45_STATUS_BINARY (at45_status_word bus (s.idx + 7 + 3 * k)) != 0) ∧
        s' =
          { s with cs := AT45_CS_HIGH, idx := s.idx + 7 + 3 * (k + 1),
                   trace := s.trace ++ statusReadTxn ++ binaryFrameTxn
                     ++ (List.replicate (k + 1) statusReadTxn).join }) := by
  have hidx : (frameAdvance s).idx = s.idx + 7 := rfl
  constructor
  · constructor
    · rintro ⟨fuel, q, hq⟩
      rw [at45_set_pagesize_binary_eq_poll bus fuel s h] at hq
      cases hp : at45_poll_ready bus fuel (frameAdvance s) with
      | none => rw [hp] at hq; exact absurd hq (by simp)
      | some p =>
        obtain ⟨k, -, -, hk, -⟩ :=
          (at45_poll_ready_spec bus fuel (frameAdvance s) p).mp hp
        rw [hidx] at hk
        exact ⟨k, hk⟩
    · rintro ⟨k, hk⟩
      obtain ⟨fuel, p, hp⟩ :=
        (at45_poll_ready_terminates bus (frameAdvance s)).mpr
          ⟨k, by rw [hidx]; exact hk⟩
      refine ⟨fuel, ((AT45_STATUS_BINARY p.1 != 0), p.2), ?_⟩
      rw [at45_set_pagesize_binary_eq_poll bus fuel s h, hp]
      rfl
  · intro fuel b s' hbs
    rw [at45_set_pagesize_binary_eq_poll bus fuel s h] at hbs
    cases hp : at45_poll_ready bus fuel (frameAdvance s) with
    | none => rw [hp] at hbs; exact absurd hbs (by simp)
    | some p =>
      rw [hp] at hbs
      simp only [Option.map_some', Option.some.injEq, Prod.mk.injEq] at hbs
      obtain ⟨k, -, hzero, hk, hpv⟩ :=
        (at45_poll_ready_spec bus fuel (frameAdvance s) p).mp hp
      rw [hidx] at hzero hk
      refine ⟨k, hzero, hk, ?_, ?_⟩
      · obtain ⟨hb, -⟩ := hbs
        rw [← hb, hpv, hidx]
      · obtain ⟨-, hs2⟩ := hbs
        rw [← hs2, hpv]
        show pollAdvance (frameAdvance s) (k + 1) = _
        rw [pollAdvance_frameAdvance]

/-- C6 witness: instantiation on the simulated geometry-change bus, whose
second poll reports ready. -/
theorem at45_set_pagesize_binary_nonbinary_witness :
    ((∃ fuel q, at45_set_pagesize_binary busGeom fuel st0 = some q) ↔
      (∃ k, AT45_STATUS_READY
        (at45_status_word busGeom (st0.idx + 7 + 3 * k)) ≠ 0)) ∧
    (∀ fuel b s', at45_set_pagesize_binary busGeom fuel st0 = some (b, s') →
      ∃ k,
        (∀ j, j < k →
          AT45_STATUS_READY (at45_status_word busGeom (st0.idx + 7 + 3 * j)) = 0) ∧
        AT45_STATUS_READY (at45_status_word busGeom (st0.idx + 7 + 3 * k)) ≠ 0 ∧
        b = (AT45_STATUS_BINARY
          (at45_status_word busGeom (st0.idx + 7 + 3 * k)) != 0) ∧
        s' =
          { st0 with cs := AT45_CS_HIGH, idx := st0.idx + 7 + 3 * (k + 1),
                     trace := st0.trace ++ statusReadTxn ++ binaryFrameTxn
                       ++ (List.replicate (k + 1) statusReadTxn).join }) :=
  at45_set_pagesize_binary_nonbinary busGeom st0 (by decide)

/-! ### Chip-select discipline -/

/-- Running the chip-select automaton over a trace from a given CS level:
returns the final level, or `none` if a byte transfer happens while the
select line is deasserted. -/
def csRun : Nat → List BusEvent → Option Nat
  | c, [] => some c
  | _, BusEvent.setCS v :: r => csRun v r
  | c, BusEvent.xfer _ :: r =>
    if c = AT45_CS_LOW then csRun c r else none

/-- A trace fragment is select-disciplined when, started deasserted, every
transfer happens while asserted and the line ends deasserted. -/
def csOk (l : List BusEvent) : Prop := csRun AT45_CS_HIGH l = some AT45_CS_HIGH

theorem csRun_append (a b : List BusEvent) :
    ∀ c, csRun c (a ++ b) = (csRun c a).bind (fun c2 => csRun c2 b) := by
  induction a with
  | nil => intro c; rfl
  | cons e r ih =>
    intro c
    cases e with
    | setCS v => simpa [csRun] using ih v
    | xfer x =>
      by_cases hc : c = AT45_CS_LOW
      · simpa [csRun, hc] using ih c
      · simp [csRun, hc]

theorem csOk_append {a b : List BusEvent} (ha : csOk a) (hb : csOk b) :
    csOk (a ++ b) := by
  rw [csOk, csRun_append, ha]
  exact hb

theorem csOk_statusReadTxn : csOk statusReadTxn := rfl

theorem csOk_idReadTxn : csOk idReadTxn := rfl

theorem csOk_binaryFrameTxn : csOk binaryFrameTxn := rfl

theorem csOk_setCS_high : csOk [BusEvent.setCS AT45_CS_HIGH] := rfl

theorem csOk_join_replicate_statusReadTxn (n : Nat) :
    csOk ((List.replicate n statusReadTxn).join) := by
  induction n with
  | zero => rfl
  | succ n ih =>
    rw [List.replicate_succ]
    show csOk (statusReadTxn ++ (List.replicate n statusReadTxn).join)
    exact csOk_append csOk_statusReadTxn ih

/-- Helper: `at45_set_pagesize_binary`, whenever it returns, leaves CS
deasserted and has appended a select-disciplined trace fragment. -/
theorem at45_set_pagesize_binary_csOk (bus : Nat → Nat) (fuel : Nat)
    (t : AT45State) (q : Bool × AT45State)
    (hq : at45_set_pagesize_binary bus fuel t = some q) :
    q.2.cs = AT45_CS_HIGH ∧ ∃ d, q.2.trace = t.trace ++ d ∧ csOk d := by
  by_cases h : AT45_STATUS_BINARY (at45_status_word bus t.idx) = 0
  · rw [at45_set_pagesize_binary_eq_poll bus fuel t h] at hq
    cases hp : at45_poll_ready bus fuel (frameAdvance t) with
    | none => rw [hp] at hq; exact absurd hq (by simp)
    | some p =>
      rw [hp] at hq
      obtain ⟨k, -, -, -, hpv⟩ :=
        (at45_poll_ready_spec bus fuel (frameAdvance t) p).mp hp
      have hq2 : q.2 = p.2 := by
        rw [← Option.some.injEq] at hq
        simp only [Option.map_some', Option.some.injEq] at hq
        rw [← hq]
      rw [hq2, hpv]
      show (pollAdvance (frameAdvance t) (k + 1)).cs = AT45_CS_HIGH ∧ _
      rw [pollAdvance_frameAdvance]
      refine ⟨rfl, statusReadTxn ++ binaryFrameTxn
        ++ (List.replicate (k + 1) statusReadTxn).join, by simp, ?_⟩
      exact csOk_append (csOk_append csOk_statusReadTxn csOk_binaryFrameTxn)
        (csOk_join_replicate_statusReadTxn (k + 1))
  · rw [at45_set_pagesize_binary_idempotent bus fuel t h] at hq
    rw [← Option.some.injEq] at hq
    simp only [Option.some.injEq] at hq
    rw [← hq]
    exact ⟨rfl, statusReadTxn, rfl, csOk_statusReadTxn⟩

/-- The handle state after the identity read and status read performed by
`init` (one CS-deassert event, then two transactions, 7 transfers). -/
def initMid (bus : Nat → Nat) (s : AT45State) : AT45State :=
  { s with cs := AT45_CS_HIGH, at45id := at45_id_word bus s.idx,
           idx := s.idx + 7,
           trace := s.trace
             ++ BusEvent.setCS AT45_CS_HIGH :: (idReadTxn ++ statusReadTxn) }

theorem init_eq (bus : Nat → Nat) (fuel : Nat) (s : AT45State) :
    init bus fuel s =
      (if AT45_STATUS_BINARY (at45_status_word bus (s.idx + 4)) ≠ 0 then
        some ((if at45_id_word bus s.idx = AT45DB161E_ID
               then at45_id_word bus s.idx else 0), initMid bus s)
      else
        match at45_set_pagesize_binary bus fuel (initMid bus s) with
        | none => none
        | some (ok, s3) =>
          if ok then
            some ((if at45_id_word bus s.idx = AT45DB161E_ID
                   then at45_id_word bus s.idx else 0), s3)
          else some (0, s3)) := by
  simp only [init, at45_get_id_eq, at45_get_status_eq]
  have h47 : s.idx + 4 + 3 = s.idx + 7 := by omega
  simp [initMid, csWrite, h47]

theorem csOk_initMidTxns :
    csOk (BusEvent.setCS AT45_CS_HIGH :: (idReadTxn ++ statusReadTxn)) := by
  show csOk ([BusEvent.setCS AT45_CS_HIGH] ++ (idReadTxn ++ statusReadTxn))
  exact csOk_append csOk_setCS_high
    (csOk_append csOk_idReadTxn csOk_statusReadTxn)

/-- C8: every implemented operation — `at45_get_status`, `at45_get_id`,
`at45_set_pagesize_binary` and `init` — appends to the trace only
select-disciplined activity (every transfer happens while CS is asserted,
and every assertion is closed before the operation ends) and returns with
the chip-select line deasserted, so no transaction spans two operations. -/
theorem at45_cs_discipline (bus : Nat → Nat) (fuel : Nat) (s : AT45State) :
    ((at45_get_status bus s).2.cs = AT45_CS_HIGH ∧
      ∃ d, (at45_get_status bus s).2.trace = s.trace ++ d ∧ csOk d) ∧
    ((at45_get_id bus s).2.cs = AT45_CS_HIGH ∧
      ∃ d, (at45_get_id bus s).2.trace = s.trace ++ d ∧ csOk d) ∧
    (∀ q, at45_set_pagesize_binary bus fuel s = some q →
      q.2.cs = AT45_CS_HIGH ∧ ∃ d, q.2.trace = s.trace ++ d ∧ csOk d) ∧
    (∀ p, init bus fuel s = some p →
      p.2.cs = AT45_CS_HIGH ∧ ∃ d, p.2.trace = s.trace ++ d ∧ csOk d) := by
  refine ⟨?_, ?_, ?_, ?_⟩
  · rw [at45_get_status_eq]
    exact ⟨rfl, statusReadTxn, rfl, csOk_statusReadTxn⟩
  · rw [at45_get_id_eq]
    exact ⟨rfl, idReadTxn, rfl, csOk_idReadTxn⟩
  · intro q hq
    exact at45_set_pagesize_binary_csOk bus fuel s q hq
  · intro p hp
    rw [init_eq] at hp
    by_cases h : AT45_STATUS_BINARY (at45_status_word bus (s.idx + 4)) ≠ 0
    · rw [if_pos h] at hp
      rw [← Option.some.inj hp]
      exact ⟨rfl, BusEvent.setCS AT45_CS_HIGH :: (idReadTxn ++ statusReadTxn),
        rfl, csOk_initMidTxns⟩
    · rw [if_neg h] at hp
      cases hsp : at45_set_pagesize_binary bus fuel (initMid bus s) with
      | none => rw [hsp] at hp; exact absurd hp (by simp)
      | some q =>
        rw [hsp] at hp
        obtain ⟨ok, s3⟩ := q
        obtain ⟨hc, d, hd, hok⟩ :=
          at45_set_pagesize_binary_csOk bus fuel (initMid bus s)
            (ok, s3) hsp
        have hp2 : p.2 = s3 := by
          cases ok
          · simp only [Bool.false_eq_true, if_false] at hp
            rw [← Option.some.inj hp]
          · simp only [if_true] at hp
            rw [← Option.some.inj hp]
        rw [hp2, hd]
        refine ⟨hc,
          BusEvent.setCS AT45_CS_HIGH :: (idReadTxn ++ statusReadTxn) ++ d,
          ?_, ?_⟩
        · show (s.trace
            ++ BusEvent.setCS AT45_CS_HIGH :: (idReadTxn ++ statusReadTxn))
            ++ d = _
          rw [List.append_assoc]
        · exact csOk_append csOk_initMidTxns hok

/-- The handle state produced by a successful initialization over
`busInitOk` (identity 1F 26 00, status 81 01). -/
def stInitOk : AT45State :=
  { cs := 1, at45id := 0x1F2600, at45_buffer := true, g_at45_buffer := true,
    idx := 7,
    trace := [BusEvent.setCS 1, BusEvent.setCS 0, BusEvent.xfer 0x9F,
      BusEvent.xfer 0, BusEvent.xfer 0, BusEvent.xfer 0, BusEvent.setCS 1,
      BusEvent.setCS 0, BusEvent.xfer 0xD7, BusEvent.xfer 0,
      BusEvent.xfer 0, BusEvent.setCS 1] }

/-- C8 witness: concrete instantiation over the successful-initialization
bus, including the `init` conjunct applied to the concrete resulting
state. -/
theorem at45_cs_discipline_witness :
    ((at45_get_status busInitOk st0).2.cs = AT45_CS_HIGH ∧
      ∃ d, (at45_get_status busInitOk st0).2.trace = st0.trace ++ d ∧
        csOk d) ∧
    (stInitOk.cs = AT45_CS_HIGH ∧
      ∃ d, stInitOk.trace = st0.trace ++ d ∧ csOk d) :=
  ⟨(at45_cs_discipline busInitOk 1 st0).1,
   (at45_cs_discipline busInitOk 1 st0).2.2.2 (AT45DB161E_ID, stInitOk)
     (by decide)⟩

/-- C4 (amended): whenever `init` terminates, its resolved identity is zero
iff the raw identity read differs from the supported constant or binary page
mode could not be confirmed (neither already binary nor successfully
configured binary) — the two failure causes yield the same zero sentinel;
and in the scenario where the bus yields identity bytes 1F 26 00 and a
status word with the binary bit set (e.g. 0x8101), construction leaves the
cached identity at 0x1F2600. -/
theorem init_zero_identity_iff (bus : Nat → Nat) (fuel : Nat) (s : AT45State)
    (h : (init bus fuel s).isSome) :
    (((init bus fuel s).get h).1 = 0 ↔
      (at45_id_word bus s.idx ≠ AT45DB161E_ID ∨
        ¬(AT45_STATUS_BINARY (at45_status_word bus (s.idx + 4)) ≠ 0 ∨
          ∃ s3, at45_set_pagesize_binary bus fuel (initMid bus s) =
            some (true, s3)))) ∧
    (AT45_STATUS_BINARY 0x8101 ≠ 0 ∧
      (AT45DB_ctor busInitOk 1 st0).map AT45State.at45id =
        some AT45DB161E_ID) := by
  refine ⟨?_, by decide⟩
  obtain ⟨p, hp⟩ := Option.isSome_iff_exists.mp h
  have hg : (init bus fuel s).get h = p := by
    simp only [hp, Option.get_some]
  rw [hg]
  rw [init_eq] at hp
  by_cases hbin : AT45_STATUS_BINARY (at45_status_word bus (s.idx + 4)) ≠ 0
  · rw [if_pos hbin] at hp
    rw [← Option.some.inj hp]
    by_cases hid : at45_id_word bus s.idx = AT45DB161E_ID
    · simp [hid, hbin, AT45DB161E_ID]
    · simp [hid, hbin]
  · rw [if_neg hbin] at hp
    have hbin0 : AT45_STATUS_BINARY (at45_status_word bus (s.idx + 4)) = 0 :=
      not_not.mp hbin
    cases hsp : at45_set_pagesize_binary bus fuel (initMid bus s) with
    | none => rw [hsp] at hp; exact absurd hp (by simp)
    | some q =>
      obtain ⟨ok, s3⟩ := q
      rw [hsp] at hp
      have hex : (∃ s3', at45_set_pagesize_binary bus fuel (initMid bus s)
          = some (true, s3')) ↔ ok = true := by
        constructor
        · rintro ⟨s3', hs3'⟩
          rw [hsp] at hs3'
          simp only [Option.some.injEq, Prod.mk.injEq] at hs3'
          exact hs3'.1
        · intro hok
          exact ⟨s3, by rw [hsp, hok]⟩
      cases ok
      · simp only [Bool.false_eq_true, if_false] at hp
        rw [← Option.some.inj hp]
        simp [hex, hbin0]
      · simp only [if_true] at hp
        rw [← Option.some.inj hp]
        by_cases hid : at45_id_word bus s.idx = AT45DB161E_ID
        · simp [hex, hbin0, hid, AT45DB161E_ID]
        · simp [hex, hbin0, hid]

/-- C4 counterexample: the status word 0x8001 named by the claim does not
have the binary-page-mode bit set (that bit is bit 0 of the upper byte), so
over a bus preloaded with identity bytes 1F 26 00 and answering 80 01 to
every status read, initialization zeroes the cached identity instead of
leaving it 0x1F2600. -/
theorem init_scenario_8001_refuted :
    AT45_STATUS_BINARY 0x8001 = 0 ∧
    at45_status_word busStatus8001 4 = 0x8001 ∧
    at45_id_word busStatus8001 0 = AT45DB161E_ID ∧
    (AT45DB_ctor busStatus8001 1 st0).map AT45State.at45id = some 0 ∧
    (0 : Nat) ≠ AT45DB161E_ID := by
  refine ⟨by decide, by decide, by decide, ?_, by decide⟩
  decide

/-- C4 witness: instantiation over the successful-initialization bus. -/
theorem init_zero_identity_iff_witness :
    ((((init busInitOk 1 st0).get (by decide)).1 = 0 ↔
      (at45_id_word busInitOk st0.idx ≠ AT45DB161E_ID ∨
        ¬(AT45_STATUS_BINARY (at45_status_word busInitOk (st0.idx + 4)) ≠ 0 ∨
          ∃ s3, at45_set_pagesize_binary busInitOk 1 (initMid busInitOk st0)
            = some (true, s3)))) ∧
    (AT45_STATUS_BINARY 0x8101 ≠ 0 ∧
      (AT45DB_ctor busInitOk 1 st0).map AT45State.at45id =
        some AT45DB161E_ID)) :=
  init_zero_identity_iff busInitOk 1 st0 (by decide)
